import Mathlib

/-!
Verification development for the symbolic object/scope resolution engine of
the `unused` static analyzer (package `unused._core`).

The embedding below translates, from the Python source:
  * `enums.py` — the `ObjectKind` / `ScopeKind` enumerations, together with a
    model of Python `Enum` member access by attribute name (needed because
    `object_.py` refers to the member name `METHOD`, which the enumeration
    does not declare);
  * `missing.py` — the `MISSING` sentinel, embedded as a distinguished
    constructor of the concrete-value type `Value`;
  * `object_.py` / `scope.py` — the object variants `Class`, `PlainObject`,
    `Method`, `Routine`, `Module`, `UnknownObject` and the binding table
    `Scope`, with `get_attribute`, `get_object`, `set_value`,
    `get_value_or_else`, `mark_module_as_dynamic`;
  * `scope_parser.py` — `visit_ClassDef`'s class-object construction,
    `visit_If` together with a constant-expression fragment of the
    evaluator and single-name assignment processing, and the builtin
    (`eval`/`exec`) branch of `_does_function_modify_caller_global_state`
    with its memoization cache;
  * `scope_parser.py` `_load_module_path_namespace` / `modules.py`
    `parse_modules` — the module loader over the process-wide registry.

Mutable heap objects are embedded by explicit state passing: an operation on
an object returns both its result and the updated object (the mutable
receiver is represented by its post-call value).  Object identity, where a
claim depends on it (the module registry), is embedded through an
allocation counter handing out distinct numeric ids.  Python exceptions are
embedded as an `Except` error type; recursive attribute lookup over the
object graph is embedded with an explicit fuel argument (a distinguished
`fuelOut` outcome that no theorem ever treats as a program behaviour).
-/

namespace Unused

/-- `enums.ObjectKind` (`src/unused/_core/enums.py`), the thirteen declared
members. -/
inductive ObjectKind where
  | BUILTIN_MODULE
  | CLASS
  | DYNAMIC_MODULE
  | EXTENSION_MODULE
  | INSTANCE
  | INSTANCE_ROUTINE
  | METACLASS
  | PROPERTY
  | ROUTINE
  | ROUTINE_CALL
  | STATIC_MODULE
  | UNKNOWN
  | UNKNOWN_CLASS
  deriving DecidableEq, Repr

/-- Python `Enum` attribute access `ObjectKind.<name>`: yields the member
with that name, or `none` (an `AttributeError` at runtime) when the
enumeration declares no such member.  Mirrors the member list of
`enums.ObjectKind`. -/
def ObjectKind.fromName : String → Option ObjectKind
  | "BUILTIN_MODULE" => some .BUILTIN_MODULE
  | "CLASS" => some .CLASS
  | "DYNAMIC_MODULE" => some .DYNAMIC_MODULE
  | "EXTENSION_MODULE" => some .EXTENSION_MODULE
  | "INSTANCE" => some .INSTANCE
  | "INSTANCE_ROUTINE" => some .INSTANCE_ROUTINE
  | "METACLASS" => some .METACLASS
  | "PROPERTY" => some .PROPERTY
  | "ROUTINE" => some .ROUTINE
  | "ROUTINE_CALL" => some .ROUTINE_CALL
  | "STATIC_MODULE" => some .STATIC_MODULE
  | "UNKNOWN" => some .UNKNOWN
  | "UNKNOWN_CLASS" => some .UNKNOWN_CLASS
  | _ => none

/-- `enums.ScopeKind` (`src/unused/_core/enums.py`). -/
inductive ScopeKind where
  | BUILTIN_MODULE
  | CLASS
  | EXTENSION_MODULE
  | DYNAMIC_MODULE
  | FUNCTION
  | METACLASS
  | STATIC_MODULE
  | UNKNOWN_CLASS
  deriving DecidableEq, Repr

/-- The Python exceptions the engine raises or whitelists
(`evaluation.EVALUATION_EXCEPTIONS` plus `AssertionError` and
`ModuleNotFoundError`). -/
inductive PyErr where
  | keyError
  | attributeError
  | indexError
  | nameError
  | typeError
  | assertionError
  | moduleNotFoundError
  deriving DecidableEq, Repr

/-- Membership in `evaluation.EVALUATION_EXCEPTIONS = (AttributeError,
IndexError, KeyError, NameError, TypeError)`. -/
def PyErr.isEvaluationException : PyErr → Bool
  | .keyError | .attributeError | .indexError | .nameError | .typeError => true
  | .assertionError | .moduleNotFoundError => false

/-- Concrete Python runtime values stored in the engine's `_values`
side-tables.  `missing` embeds the sentinel `missing.MISSING`; it is a
possible stored value because `Class.set_value` writes it (the point of
claim C3), and `is MISSING` tests are equality with this constructor. -/
inductive Value where
  | missing
  | noneV
  | boolV (b : Bool)
  | intV (n : Int)
  | strV (s : String)
  deriving DecidableEq, Repr

/-- Python truthiness of a `Value` (`bool(v)`); `MISSING` is a plain enum
member and hence truthy. -/
def Value.truthy : Value → Bool
  | .missing => true
  | .noneV => false
  | .boolV b => b
  | .intV n => n ≠ 0
  | .strV s => s ≠ ""

/-- `object_path.ModulePath`, by its component tuple.  (Identifier-validity
checking of components is orthogonal to every claim and omitted.) -/
abbrev ModulePath := List String

/-- `object_path.LocalObjectPath`, by its component tuple. -/
abbrev LocalObjectPath := List String

/-- `LocalObjectPath.join` restricted to one component. -/
def LocalObjectPath.join (p : LocalObjectPath) (c : String) : LocalObjectPath :=
  p ++ [c]

/-- Python `dict` lookup `m[k]` over an association-list embedding of a
string-keyed dict (first binding wins; `ainsert` keeps at most one). -/
def alookup {α : Type} (m : List (String × α)) (k : String) : Option α :=
  match m with
  | [] => none
  | (k', v) :: rest => if k' = k then some v else alookup rest k

/-- Python `dict` store `m[k] = v`. -/
def ainsert {α : Type} (m : List (String × α)) (k : String) (v : α) :
    List (String × α) :=
  match m with
  | [] => [(k, v)]
  | (k', v') :: rest =>
      if k' = k then (k, v) :: rest else (k', v') :: ainsert rest k v

/-- Python `dict` removal `m.pop(k, None)`. -/
def aerase {α : Type} (m : List (String × α)) (k : String) :
    List (String × α) :=
  match m with
  | [] => []
  | (k', v') :: rest =>
      if k' = k then rest else (k', v') :: aerase rest k

/-- Python `k in m`. -/
def acontains {α : Type} (m : List (String × α)) (k : String) : Bool :=
  (alookup m k).isSome

mutual

/-- The tagged object union of `object_.py`: constructors `Class`,
`PlainObject`, `Method`, `Routine`, `Module`, `UnknownObject`, with the
instance fields of each Python class.  `Method` stores only the routine and
the bound instance: its `_objects` dict is always exactly
`{'__self__': instance, '__func__': routine}` (the class defines no
`set_attribute`) and its `_values` stays empty (no `set_value`). -/
inductive Object where
  | Class (scope : Scope) (bases : List Object) (metaclass : MetaField)
      (attributes : List (String × Object)) (values : List (String × Value))
  | PlainObject (kind : ObjectKind) (module_path : ModulePath)
      (local_path : LocalObjectPath) (included_objects : List Object)
      (objects : List (String × Object)) (values : List (String × Value))
  | Method (routine : Object) (inst : Object)
  | Routine (module_path : ModulePath) (local_path : LocalObjectPath)
      (base_classes : List Object) (objects : List (String × Object))
      (values : List (String × Value))
  | Module (scope : Scope)
  | UnknownObject (module_path : ModulePath) (local_path : LocalObjectPath)
      (objects : List (String × Object)) (values : List (String × Value))

/-- The `Class._metaclass` slot.  Its annotated type is `Object | Missing`,
but both construction sites (`ScopeParser.visit_ClassDef` and
`modules._dependency_node_to_object`) can also pass Python `None`, so the
embedding records all three possibilities. -/
inductive MetaField where
  | obj (o : Object)
  | missing
  | pyNone

/-- `scope.Scope`: kind, paths, own binding table `_objects`, the
`_included_objects` fallback list and the concrete-value table `_values`. -/
inductive Scope where
  | mk (kind : ScopeKind) (module_path : ModulePath)
      (local_path : LocalObjectPath) (objects : List (String × Object))
      (included_objects : List Object) (values : List (String × Value))

end

namespace Scope

def kind : Scope → ScopeKind
  | .mk k _ _ _ _ _ => k

def module_path : Scope → ModulePath
  | .mk _ mp _ _ _ _ => mp

def local_path : Scope → LocalObjectPath
  | .mk _ _ lp _ _ _ => lp

def objects : Scope → List (String × Object)
  | .mk _ _ _ o _ _ => o

def included_objects : Scope → List Object
  | .mk _ _ _ _ inc _ => inc

def values : Scope → List (String × Value)
  | .mk _ _ _ _ _ v => v

end Scope

/-- `Class.kind` property (`object_.py` lines 29-36): derived from the scope
kind, with the final `assert` on any other scope kind. -/
def classKindOfScopeKind : ScopeKind → Except PyErr ObjectKind
  | .CLASS => .ok .CLASS
  | .METACLASS => .ok .METACLASS
  | .UNKNOWN_CLASS => .ok .UNKNOWN_CLASS
  | _ => .error .assertionError

/-- `Module.kind` property (`object_.py` lines 714-731): derived from the
scope kind, with the final `assert` on any other scope kind. -/
def moduleKindOfScopeKind : ScopeKind → Except PyErr ObjectKind
  | .BUILTIN_MODULE => .ok .BUILTIN_MODULE
  | .DYNAMIC_MODULE => .ok .DYNAMIC_MODULE
  | .EXTENSION_MODULE => .ok .EXTENSION_MODULE
  | .STATIC_MODULE => .ok .STATIC_MODULE
  | _ => .error .assertionError

/-- The `kind` property of each object variant.  `Method.kind` returns
`ObjectKind.METHOD` (`object_.py` lines 441-444); the enumeration declares
no member named `METHOD`, so the attribute access is embedded through
`ObjectKind.fromName` and raises `AttributeError` when absent. -/
def Object.kind : Object → Except PyErr ObjectKind
  | .Class scope _ _ _ _ => classKindOfScopeKind scope.kind
  | .PlainObject k _ _ _ _ _ => .ok k
  | .Method _ _ =>
      match ObjectKind.fromName "METHOD" with
      | some k => .ok k
      | none => .error .attributeError
  | .Routine _ _ _ _ _ => .ok .ROUTINE
  | .Module scope => moduleKindOfScopeKind scope.kind
  | .UnknownObject _ _ _ _ => .ok .UNKNOWN

/-- Outcome type of recursive attribute lookup: a Python exception, or the
embedding artifact `fuelOut` marking recursion-budget exhaustion (never a
program behaviour; every theorem below supplies enough fuel). -/
inductive LookupErr where
  | py (e : PyErr)
  | fuelOut
  deriving DecidableEq, Repr

def liftPy {α : Type} : Except PyErr α → Except LookupErr α
  | .ok a => .ok a
  | .error e => .error (.py e)

mutual

/-- `get_attribute` of every object variant (`object_.py`), state-passing:
returns the looked-up object together with the receiver's post-call value.
`fuel` bounds recursion depth only.  Mutation on failing branches: the
source mutates object tables only on successful returns (synthesis and
memoization), so a `KeyError` sub-lookup leaves its receiver unchanged and
the embedding keeps the pre-call value there. -/
def Object.get_attribute (fuel : Nat) (o : Object) (name : String) :
    Except LookupErr (Object × Object) :=
  match fuel with
  | 0 => .error .fuelOut
  | fuel + 1 =>
    match o with
    | .Class scope bases metaclass attributes values =>
      match alookup attributes name with
      | some candidate => do
          -- lines 112-125: rewrap `__init_subclass__` / `__new__` routines
          let selfKind ← liftPy (classKindOfScopeKind scope.kind)
          let self := Object.Class scope bases metaclass attributes values
          if selfKind = .CLASS then do
            let candidateKind ← liftPy candidate.kind
            if candidateKind = .ROUTINE
                ∧ (name = "__init_subclass__" ∨ name = "__new__") then
              pure (.Method candidate self, self)
            else
              pure (candidate, self)
          else
            pure (candidate, self)
      | none =>
        -- lines 86-89: `try: return self._scope.get_object(name)
        -- except KeyError: pass`
        match Scope.get_object fuel scope name with
        | .ok (r, scope') =>
            .ok (r, .Class scope' bases metaclass attributes values)
        | .error (.py .keyError) =>
          -- lines 90-94: bases, in stored order, skipping `KeyError`
          match included_lookup fuel bases name with
          | .ok (some (r, _), bases') =>
              .ok (r, .Class scope bases' metaclass attributes values)
          | .ok (none, bases') =>
            -- lines 95-104: metaclass fallback, guarded by `is not MISSING`
            match metaclass with
            | .obj m => do
                let selfKind ← liftPy (classKindOfScopeKind scope.kind)
                if selfKind = .CLASS then
                  match Object.get_attribute fuel m name with
                  | .ok (candidate, m') => do
                      let self' := Object.Class scope bases' (.obj m')
                        attributes values
                      let candidateKind ← liftPy candidate.kind
                      if candidateKind = .ROUTINE then
                        pure (.Method candidate self', self')
                      else
                        pure (candidate, self')
                  | .error (.py .keyError) =>
                      class_get_attribute_tail scope bases' (.obj m)
                        attributes values name
                  | .error e => .error e
                else
                  .error (.py .assertionError)
            | .pyNone => do
                -- `None is not MISSING` holds, so the branch is entered:
                -- first `assert self.kind is ObjectKind.CLASS`, then
                -- `None.get_attribute(name)` raises AttributeError
                let selfKind ← liftPy (classKindOfScopeKind scope.kind)
                if selfKind = .CLASS then
                  .error (.py .attributeError)
                else
                  .error (.py .assertionError)
            | .missing =>
                class_get_attribute_tail scope bases' .missing attributes
                  values name
          | .error e => .error e
        | .error e => .error e
    | .PlainObject k module_path local_path included_objects objects values =>
      match alookup objects name with
      | some r =>
          .ok (r, .PlainObject k module_path local_path included_objects
            objects values)
      | none =>
        -- lines 298-309: included objects, with the instance-to-class
        -- routine rewrap
        match included_lookup fuel included_objects name with
        | .ok (some (candidate, memberPost), included') => do
            let self' := Object.PlainObject k module_path local_path
              included' objects values
            let candidateKind ← liftPy candidate.kind
            if candidateKind = .ROUTINE ∧ k = .INSTANCE then do
              let includedKind ← liftPy memberPost.kind
              if includedKind = .CLASS then
                pure (.Method candidate self', self')
              else
                pure (candidate, self')
            else
              pure (candidate, self')
        | .ok (none, included') =>
            -- lines 310-320: synthesis for the open plain kinds
            if k = .ROUTINE_CALL ∨ k = .INSTANCE ∨ k = .PROPERTY then
              let result := Object.UnknownObject module_path
                (local_path.join name) [] []
              .ok (result, .PlainObject k module_path local_path included'
                (ainsert objects name result) values)
            else
              .error (.py .keyError)
        | .error e => .error e
    | .Method routine inst =>
        -- `Method.get_attribute` = `strict_get_attribute` (lines 472-509):
        -- `_objects` is exactly the two bound entries; on a miss,
        -- `self.BASE_CLS` is a ClassVar that is declared but never assigned
        -- anywhere in the package, so accessing it raises AttributeError
        if name = "__self__" then
          .ok (inst, .Method routine inst)
        else if name = "__func__" then
          .ok (routine, .Method routine inst)
        else
          .error (.py .attributeError)
    | .Routine module_path local_path base_classes objects values =>
      match alookup objects name with
      | some r =>
          .ok (r, .Routine module_path local_path base_classes objects values)
      | none =>
        -- lines 650-659: base classes, with the routine-to-method rewrap
        match included_lookup fuel base_classes name with
        | .ok (some (candidate, _), base_classes') => do
            let self' := Object.Routine module_path local_path base_classes'
              objects values
            let candidateKind ← liftPy candidate.kind
            if candidateKind = .ROUTINE then
              pure (.Method candidate self', self')
            else
              pure (candidate, self')
        | .ok (none, _) => .error (.py .keyError)
        | .error e => .error e
    | .Module scope =>
      -- lines 774-788
      match Scope.get_object fuel scope name with
      | .ok (r, scope') => .ok (r, .Module scope')
      | .error (.py .keyError) => do
          let selfKind ← liftPy (moduleKindOfScopeKind scope.kind)
          if selfKind = .BUILTIN_MODULE ∨ selfKind = .DYNAMIC_MODULE
              ∨ selfKind = .EXTENSION_MODULE then
            let result := Object.UnknownObject scope.module_path
              (scope.local_path.join name) [] []
            .ok (result, .Module (.mk scope.kind scope.module_path
              scope.local_path (ainsert scope.objects name result)
              scope.included_objects scope.values))
          else
            .error (.py .keyError)
      | .error e => .error e
    | .UnknownObject module_path local_path objects values =>
      -- lines 874-882: memoizing synthesis, never fails
      match alookup objects name with
      | some r =>
          .ok (r, .UnknownObject module_path local_path objects values)
      | none =>
          let result := Object.UnknownObject module_path
            (local_path.join name) [] []
          .ok (result, .UnknownObject module_path local_path
            (ainsert objects name result) values)

/-- The tail of `Class.get_attribute`'s miss path once scope, bases and
metaclass have all missed (lines 105-111): synthesis for `UNKNOWN_CLASS`
kind, else the re-raised `KeyError`. -/
def class_get_attribute_tail (scope : Scope) (bases : List Object)
    (metaclass : MetaField) (attributes : List (String × Object))
    (values : List (String × Value)) (name : String) :
    Except LookupErr (Object × Object) := do
  let selfKind ← liftPy (classKindOfScopeKind scope.kind)
  if selfKind = .UNKNOWN_CLASS then
    let result := Object.UnknownObject scope.module_path
      (scope.local_path.join name) [] []
    .ok (result, .Class scope bases metaclass
      (ainsert attributes name result) values)
  else
    .error (.py .keyError)

/-- `Scope.get_object` (`scope.py` lines 95-115): own table, then included
objects, then `UnknownObject` synthesis for the open scope kinds, else
`KeyError`. -/
def Scope.get_object (fuel : Nat) (scope : Scope) (name : String) :
    Except LookupErr (Object × Scope) :=
  match fuel with
  | 0 => .error .fuelOut
  | fuel + 1 =>
    match scope with
    | .mk k module_path local_path objects included_objects values =>
      match alookup objects name with
      | some r =>
          .ok (r, .mk k module_path local_path objects included_objects
            values)
      | none =>
        match included_lookup fuel included_objects name with
        | .ok (some (r, _), included') =>
            .ok (r, .mk k module_path local_path objects included' values)
        | .ok (none, included') =>
            if k = .BUILTIN_MODULE ∨ k = .DYNAMIC_MODULE
                ∨ k = .EXTENSION_MODULE ∨ k = .UNKNOWN_CLASS then
              let result := Object.UnknownObject module_path
                (local_path.join name) [] []
              .ok (result, .mk k module_path local_path
                (ainsert objects name result) included' values)
            else
              .error (.py .keyError)
        | .error e => .error e

/-- The `for member in members: try: ... get_attribute(name) except
KeyError: continue` loop shared by `Class.get_attribute` (bases),
`PlainObject.get_attribute` / `Scope.get_object` (included objects) and
`Routine.strict_get_attribute` (base classes).  Returns the first
successful candidate plus that member's post-call value, or `none` when
every member raised `KeyError`; a non-`KeyError` exception propagates. -/
def included_lookup (fuel : Nat) (members : List Object) (name : String) :
    Except LookupErr (Option (Object × Object) × List Object) :=
  match fuel with
  | 0 => .error .fuelOut
  | fuel + 1 =>
    match members with
    | [] => .ok (none, [])
    | o :: rest =>
      match Object.get_attribute fuel o name with
      | .ok (r, o') => .ok (some (r, o'), o' :: rest)
      | .error (.py .keyError) =>
        match included_lookup fuel rest name with
        | .ok (res, rest') => .ok (res, o :: rest')
        | .error e => .error e
      | .error e => .error e

end

/-- `Object.local_path` property of each variant; for `Method` it is the
instance's path joined with the routine path's final component
(`object_.py` lines 454-458; the `[-1]` indexing presumes a nonempty
routine path, the only case arising). -/
def Object.local_path : Object → LocalObjectPath
  | .Class scope _ _ _ _ => scope.local_path
  | .PlainObject _ _ lp _ _ _ => lp
  | .Method routine inst =>
      inst.local_path.join ((Object.local_path routine).getLastD "")
  | .Routine _ lp _ _ _ => lp
  | .Module scope => scope.local_path
  | .UnknownObject _ lp _ _ => lp

/-- `Object.module_path` property of each variant (for `Method`, the
instance's module path, `object_.py` lines 450-452). -/
def Object.module_path : Object → ModulePath
  | .Class scope _ _ _ _ => scope.module_path
  | .PlainObject _ mp _ _ _ _ => mp
  | .Method _ inst => Object.module_path inst
  | .Routine mp _ _ _ _ => mp
  | .Module scope => scope.module_path
  | .UnknownObject mp _ _ _ => mp

/-- `Scope.set_value` (`scope.py` lines 155-162): requires an existing
`_objects` binding (assert), deletes the stored value when writing
`MISSING`, stores it otherwise (this variant has the `else:`). -/
def Scope.set_value (scope : Scope) (name : String) (v : Value) :
    Except PyErr Scope :=
  match scope with
  | .mk k module_path local_path objects included_objects values =>
    if acontains objects name then
      if v = .missing then
        if acontains values name then
          .ok (.mk k module_path local_path objects included_objects
            (aerase values name))
        else
          .error .assertionError
      else
        .ok (.mk k module_path local_path objects included_objects
          (ainsert values name v))
    else
      .error .assertionError

/-- `set_value` of each object variant.  `Class.set_value` (`object_.py`
lines 154-160) pops the stored value on `MISSING` and then — having no
`else:` before the final store, unlike `PlainObject`/`Routine`/
`UnknownObject`/`Scope` — unconditionally writes the argument back, so the
`MISSING` sentinel itself ends up stored.  `Method` defines no `set_value`
at all, so the attribute access raises. -/
def Object.set_value (o : Object) (name : String) (v : Value) :
    Except PyErr Object :=
  match o with
  | .Class scope bases metaclass attributes values =>
    if acontains attributes name then
      if v = .missing then
        if acontains values name then
          .ok (.Class scope bases metaclass attributes
            (ainsert (aerase values name) name v))
        else
          .error .assertionError
      else
        .ok (.Class scope bases metaclass attributes (ainsert values name v))
    else
      .error .assertionError
  | .PlainObject k module_path local_path included_objects objects values =>
    if acontains objects name then
      if v = .missing then
        if acontains values name then
          .ok (.PlainObject k module_path local_path included_objects objects
            (aerase values name))
        else
          .error .assertionError
      else
        .ok (.PlainObject k module_path local_path included_objects objects
          (ainsert values name v))
    else
      .error .assertionError
  | .Method _ _ => .error .attributeError
  | .Routine module_path local_path base_classes objects values =>
    if acontains objects name then
      if v = .missing then
        if acontains values name then
          .ok (.Routine module_path local_path base_classes objects
            (aerase values name))
        else
          .error .assertionError
      else
        .ok (.Routine module_path local_path base_classes objects
          (ainsert values name v))
    else
      .error .assertionError
  | .Module scope => (Scope.set_value scope name v).map (.Module ·)
  | .UnknownObject module_path local_path objects values =>
    if acontains objects name then
      if v = .missing then
        if acontains values name then
          .ok (.UnknownObject module_path local_path objects
            (aerase values name))
        else
          .error .assertionError
      else
        .ok (.UnknownObject module_path local_path objects
          (ainsert values name v))
    else
      .error .assertionError

/-- `Scope.get_value_or_else` (`scope.py` lines 91-93):
`self._values.get(name, default)`. -/
def Scope.get_value_or_else (scope : Scope) (name : String)
    (default : Value) : Value :=
  (alookup scope.values name).getD default

/-- `get_value_or_else` of each object variant:
`self._values.get(name, default)` (for `Module`, through its scope;
`Method`'s `_values` is always empty). -/
def Object.get_value_or_else (o : Object) (name : String) (default : Value) :
    Value :=
  match o with
  | .Class _ _ _ _ values => (alookup values name).getD default
  | .PlainObject _ _ _ _ _ values => (alookup values name).getD default
  | .Method _ _ => default
  | .Routine _ _ _ _ values => (alookup values name).getD default
  | .Module scope => scope.get_value_or_else name default
  | .UnknownObject _ _ _ values => (alookup values name).getD default

/-- `Object.set_attribute` of the mutable variants (direct dict store into
`_attributes` / `_objects`; for `Module`, `Scope.set_object`).  `Method` has
no `set_attribute`. -/
def Object.set_attribute (o : Object) (name : String) (value : Object) :
    Except PyErr Object :=
  match o with
  | .Class scope bases metaclass attributes values =>
      .ok (.Class scope bases metaclass (ainsert attributes name value)
        values)
  | .PlainObject k module_path local_path included_objects objects values =>
      .ok (.PlainObject k module_path local_path included_objects
        (ainsert objects name value) values)
  | .Method _ _ => .error .attributeError
  | .Routine module_path local_path base_classes objects values =>
      .ok (.Routine module_path local_path base_classes
        (ainsert objects name value) values)
  | .Module scope =>
      .ok (.Module (.mk scope.kind scope.module_path scope.local_path
        (ainsert scope.objects name value) scope.included_objects
        scope.values))
  | .UnknownObject module_path local_path objects values =>
      .ok (.UnknownObject module_path local_path (ainsert objects name value)
        values)

/-- `Scope.mark_module_as_dynamic` (`scope.py` lines 117-119):
`assert self._kind is ScopeKind.STATIC_MODULE` then the kind write.  The
`_kind` slot is written nowhere else after `__init__`. -/
def Scope.mark_module_as_dynamic (scope : Scope) : Except PyErr Scope :=
  match scope with
  | .mk k module_path local_path objects included_objects values =>
    if k = .STATIC_MODULE then
      .ok (.mk .DYNAMIC_MODULE module_path local_path objects
        included_objects values)
    else
      .error .assertionError

/-- The `metaclass` argument slot of a constructed `Class`, for stating
what a construction site stored. -/
def Object.metaclassField : Object → Option MetaField
  | .Class _ _ m _ _ => some m
  | _ => none

/-- The stored base list of a constructed `Class`. -/
def Object.basesField : Object → Option (List Object)
  | .Class _ b _ _ _ => some b
  | _ => none

/-- Lazy short-circuiting `any(member.kind is ... for member in members)`
over base objects (the `kind` property may raise). -/
def any_base_kind (members : List Object) (p : ObjectKind → Bool) :
    Except PyErr Bool :=
  match members with
  | [] => .ok false
  | b :: rest => do
      let k ← b.kind
      if p k then .ok true else any_base_kind rest p

/-- `ScopeParser.visit_ClassDef` (`scope_parser.py` lines 403-529), as the
class object it constructs.  Embedding choices: the constructed base
objects are supplied per declared base in declaration order
(`none` for a base whose construction returned `None`), and the function
performs the source's reversed iteration and `None` skipping; the nested
body walk is supplied as the resulting class-scope binding tables; the
`metaclass=` keyword is supplied as its constructed object (`none` when the
keyword is absent or its construction returned `None`), checked by the
source's kind assert; the three `BUILTINS_MODULE.get_nested_attribute`
results (`object`, `dict`, `str`) are supplied as arguments.  The decorator
loop and the final binding of the class into the enclosing scope (lines
530-571) are outside the constructed object and omitted.  Lines 408-420
append the constructed bases in reversed declaration order and line 475
passes that list to `Class` unchanged; line 477 passes the keyword's
`metacls_object` — Python `None` when absent — as `metaclass=`. -/
def visit_ClassDef_class_object (class_name : String)
    (parser_module_path : ModulePath) (parser_local_path : LocalObjectPath)
    (declared_bases : List (Option Object))
    (body_objects : List (String × Object))
    (body_values : List (String × Value)) (metacls_object : Option Object)
    (builtins_object_cls dict_cls str_cls : Object) :
    Except PyErr Object := do
  let class_local_path := parser_local_path.join class_name
  let base_cls_objects := declared_bases.reverse.filterMap id
  let hasMetaclassBase ← any_base_kind base_cls_objects (· = .METACLASS)
  let scope_kind ←
    if hasMetaclassBase then
      pure ScopeKind.METACLASS
    else do
      let hasUnknownBase ← any_base_kind base_cls_objects
        (fun k => k = .UNKNOWN ∨ k = .UNKNOWN_CLASS)
      pure (if hasUnknownBase then ScopeKind.UNKNOWN_CLASS
        else ScopeKind.CLASS)
  let class_scope := Scope.mk scope_kind parser_module_path class_local_path
    body_objects [] body_values
  match metacls_object with
  | some m => do
      let mk ← m.kind
      if mk = .METACLASS ∨ mk = .UNKNOWN_CLASS then pure ()
      else .error .assertionError
  | none => pure ()
  let metaclass : MetaField :=
    match metacls_object with
    | some m => .obj m
    | none => .pyNone
  let class_object := Object.Class class_scope
    (if declared_bases.length = 0 then [builtins_object_cls]
      else base_cls_objects)
    metaclass [] []
  let class_object ← class_object.set_attribute "__dict__"
    (.PlainObject .INSTANCE parser_module_path
      (class_local_path.join "__dict__") [dict_cls] [] [])
  let class_object ← class_object.set_attribute "__module__"
    (.PlainObject .INSTANCE parser_module_path
      (class_local_path.join "__module__") [str_cls] [] [])
  let class_object ← class_object.set_value "__module__"
    (.strV (String.intercalate "." parser_module_path))
  let class_object ← class_object.set_attribute "__name__"
    (.PlainObject .INSTANCE parser_module_path
      (class_local_path.join "__name__") [str_cls] [] [])
  let class_object ← class_object.set_value "__name__" (.strV class_name)
  let class_object ← class_object.set_attribute "__qualname__"
    (.PlainObject .INSTANCE parser_module_path
      (class_local_path.join "__qualname__") [str_cls] [] [])
  let class_object ← class_object.set_value "__qualname__"
    (.strV (String.intercalate "." class_local_path))
  pure class_object

/-- `modules._dependency_node_to_object` (`modules.py` lines 518-573)
restricted to the class kinds: builds a `Class` over a fresh scope via
`_class_object_kind_to_scope_kind`, with the base objects and the
metaclass object resolved from the collected path maps supplied as
arguments; when `metaclass_paths` has no entry the `metaclass=` argument is
Python `None` (line 551). -/
def dependency_node_to_class (object_kind : ObjectKind)
    (module_path : ModulePath) (local_path : LocalObjectPath)
    (base_objects : List Object) (metaclass_object : Option Object) :
    Except PyErr Object := do
  let scope_kind ←
    match object_kind with
    | .CLASS => pure ScopeKind.CLASS
    | .METACLASS => pure ScopeKind.METACLASS
    | .UNKNOWN_CLASS => pure ScopeKind.UNKNOWN_CLASS
    | _ => .error .assertionError
  pure (.Class (.mk scope_kind module_path local_path [] [] [])
    base_objects
    (match metaclass_object with
      | some m => .obj m
      | none => .pyNone)
    [] [])

/-- Python `dict` lookup over keys of any decidable-equality type
(for the caches and registries keyed by paths). -/
def klookup {κ α : Type} [DecidableEq κ] (m : List (κ × α)) (k : κ) :
    Option α :=
  match m with
  | [] => none
  | (k', v) :: rest => if k' = k then some v else klookup rest k

/-- Python `dict` store over arbitrary keys. -/
def kinsert {κ α : Type} [DecidableEq κ] (m : List (κ × α)) (k : κ) (v : α) :
    List (κ × α) :=
  match m with
  | [] => [(k, v)]
  | (k', v') :: rest =>
      if k' = k then (k, v) :: rest else (k', v') :: kinsert rest k v

/-- Python `del m[k]` over arbitrary keys. -/
def kerase {κ α : Type} [DecidableEq κ] (m : List (κ × α)) (k : κ) :
    List (κ × α) :=
  match m with
  | [] => []
  | (k', v') :: rest =>
      if k' = k then rest else (k', v') :: kerase rest k

/-- An element of `positional_arguments` in
`_does_function_modify_caller_global_state`: either the `Starred.UNKNOWN`
sentinel (an unpacked-argument expression that could not be evaluated) or
an evaluated argument value (`Value.missing` when evaluation of that
argument failed). -/
inductive PositionalArgument where
  | starredUnknown
  | value (v : Value)
  deriving DecidableEq, Repr

/-- `sum(argument is not Starred.UNKNOWN for argument in
positional_arguments)` (`scope_parser.py` lines 115-118). -/
def count_not_starred_unknown (positional_arguments : List PositionalArgument) :
    Nat :=
  (positional_arguments.filter (· ≠ .starredUnknown)).length

/-- Cache key of `_does_function_modify_caller_global_state`
(`scope_parser.py` line 89): the function's module path and local path. -/
abbrev FunctionKey := ModulePath × LocalObjectPath

/-- `_does_function_modify_caller_global_state` (`scope_parser.py` lines
75-123), on the path where the function has no recorded definition node
(the builtins, reached for `eval`/`exec`): the cache is consulted first
(line 91) and, on a miss, the verdict of lines 101-122 is computed, stored
in the cache and returned at line 123 — an early return that never reaches
the argument-dependent cache discard of lines 274-275.  The `cache`
parameter is the function's shared mutable default-argument dict, threaded
explicitly. -/
def does_builtin_function_modify_caller_global_state
    (cache : List (FunctionKey × Bool)) (module_path : ModulePath)
    (local_path : LocalObjectPath)
    (positional_arguments : List PositionalArgument)
    (keyword_arguments : List (String × Value)) :
    Bool × List (FunctionKey × Bool) :=
  match klookup cache (module_path, local_path) with
  | some result => (result, cache)
  | none =>
      let result : Bool :=
        decide (module_path = ["builtins"])
          && (decide (local_path = ["eval"])
            || decide (local_path = ["exec"]))
          && decide (count_not_starred_unknown positional_arguments < 2)
          && !(acontains keyword_arguments "globals")
      (result, kinsert cache (module_path, local_path) result)

/-- A value of the `module_file_paths` mapping (`scope_parser.py`
`_load_module_path_namespace`): Python `None` for a builtin with no
locatable source, an extension-module file, or a real source file. -/
inductive ModuleFilePathEntry where
  | pyNone
  | extensionFile
  | sourceFile
  deriving DecidableEq, Repr

/-- The process-wide registry `modules.MODULES` plus an allocation counter:
each constructed `Module` object gets a fresh numeric id, embedding Python
object identity (`is`). -/
structure LoaderState where
  registry : List (ModulePath × Nat)
  nextId : Nat
  deriving DecidableEq, Repr

/-- How `_load_module_path_namespace` produced its result. -/
inductive LoadedModuleKind where
  | registered
  | builtinPlaceholder
  | extensionPlaceholder
  deriving DecidableEq, Repr

structure LoadedModule where
  id : Nat
  kind : LoadedModuleKind
  deriving DecidableEq, Repr

/-- `_load_module_path_namespace` (`scope_parser.py` lines 1497-1566) over
the registry/identity state.  On a registry hit the cached object is
returned unchanged.  On a miss: no mapping entry raises
`ModuleNotFoundError`; a `None` file path returns a fresh, unregistered
`BUILTIN_MODULE` placeholder; an extension suffix returns a fresh,
unregistered `EXTENSION_MODULE` placeholder; a real source file is parsed
and `parse_modules` registers the fresh `Module` (line 1534, before the
body walk), the body is walked by a parser that can observe the registry
(the `walk` argument, line 1562), and on any exception the registry entry
is deleted and the exception re-raised (lines 1563-1565).  The dunder
`set_attribute` calls between registration and walking do not touch the
registry and are omitted. -/
def load_module_path_namespace
    (module_file_paths : List (ModulePath × ModuleFilePathEntry))
    (walk : List (ModulePath × Nat) → Except PyErr Unit)
    (module_path : ModulePath) (st : LoaderState) :
    Except PyErr LoadedModule × LoaderState :=
  match klookup st.registry module_path with
  | some i => (.ok ⟨i, .registered⟩, st)
  | none =>
    match klookup module_file_paths module_path with
    | none => (.error .moduleNotFoundError, st)
    | some .pyNone =>
        (.ok ⟨st.nextId, .builtinPlaceholder⟩,
          ⟨st.registry, st.nextId + 1⟩)
    | some .extensionFile =>
        (.ok ⟨st.nextId, .extensionPlaceholder⟩,
          ⟨st.registry, st.nextId + 1⟩)
    | some .sourceFile =>
        let i := st.nextId
        let registry' := kinsert st.registry module_path i
        match walk registry' with
        | .ok _ => (.ok ⟨i, .registered⟩, ⟨registry', st.nextId + 1⟩)
        | .error e => (.error e, ⟨kerase registry' module_path, st.nextId + 1⟩)

/-- The expression fragment needed by the conditional-exclusivity claim:
literal constants (every expression in `if False: x = 1`). -/
inductive MExpr where
  | const (v : Value)
  deriving DecidableEq, Repr

/-- `evaluate_expression_node` on that fragment: the `ast.Constant`
handler returns `node.value` (`evaluation.py` lines 257-263). -/
def evaluate_expression : MExpr → Except PyErr Value
  | .const v => .ok v

/-- Statements needed by the conditional-exclusivity claim: single-name
assignment and the if-statement. -/
inductive MStmt where
  | assign (target : String) (value : MExpr)
  | ifStmt (test : MExpr) (body : List MStmt) (orelse : List MStmt)

mutual

/-- `ScopeParser.visit_Assign` (`scope_parser.py` lines 322-331) together
with `_process_assignment` (lines 1002-1070) for a plain module-scope name
target, and `ScopeParser.visit_If` (lines 757-768), over a single module
scope.  Assignment: the right side is evaluated, whitelisted failures
becoming `MISSING`; the target name is bound to the object built by
`construct_object_from_expression_node` — the `UnknownObject` default, no
`ast.Constant` handler being registered (`construction.py` lines 27-37) —
and the evaluated value is stored under it, a `MISSING` result instead
deleting any stale stored value.  If-statement: the test is evaluated;
on success only the taken branch is visited; on a whitelisted failure both
branches are visited under `contextlib.suppress` of the same exceptions.
Returns the post-visit scope together with an uncaught exception when one
escapes (partial mutation preserved, as in the source). -/
def visit_stmt (fuel : Nat) (scope : Scope) (stmt : MStmt) :
    Scope × Option PyErr :=
  match fuel with
  | 0 => (scope, some .assertionError)
  | fuel + 1 =>
    match stmt with
    | .assign target value_node =>
      let value : Value :=
        match evaluate_expression value_node with
        | .ok v => v
        | .error _ => .missing
      match scope with
      | .mk k module_path local_path objects included_objects values =>
        let objects' := ainsert objects target
          (.UnknownObject module_path (local_path.join target) [] [])
        let values' :=
          if value = .missing then aerase values target
          else ainsert values target value
        (.mk k module_path local_path objects' included_objects values',
          none)
    | .ifStmt test body orelse =>
      match evaluate_expression test with
      | .ok condition_satisfied =>
          visit_stmts fuel scope
            (if condition_satisfied.truthy then body else orelse)
      | .error e =>
          if e.isEvaluationException then
            match visit_stmts fuel scope (body ++ orelse) with
            | (scope', none) => (scope', none)
            | (scope', some e') =>
                if e'.isEvaluationException then (scope', none)
                else (scope', some e')
          else
            (scope, some e)

/-- Sequential statement visiting, stopping at the first uncaught
exception (a raising statement aborts the enclosing loop). -/
def visit_stmts (fuel : Nat) (scope : Scope) (stmts : List MStmt) :
    Scope × Option PyErr :=
  match fuel with
  | 0 => (scope, some .assertionError)
  | fuel + 1 =>
    match stmts with
    | [] => (scope, none)
    | stmt :: rest =>
      match visit_stmt fuel scope stmt with
      | (scope', none) => visit_stmts fuel scope' rest
      | (scope', some e) => (scope', some e)

end

/-- `obj.get_attribute(n₁).get_attribute(n₂)...`: chained attribute access,
each step on the previous step's result. -/
def chain_get_attribute (fuel : Nat) (o : Object) :
    List String → Except LookupErr Object
  | [] => .ok o
  | name :: rest =>
    match Object.get_attribute fuel o name with
    | .ok (r, _) => chain_get_attribute fuel r rest
    | .error e => .error e

/-- The `UnknownObject` states reachable by construction
(`UnknownObject.__init__` leaves `_objects` empty) and `get_attribute`
chains (which only ever store further such states): every stored child is
itself such a state. -/
inductive UnknownClosed : Object → Prop where
  | intro (module_path : ModulePath) (local_path : LocalObjectPath)
      (objects : List (String × Object)) (values : List (String × Value))
      (h : ∀ p ∈ objects, UnknownClosed p.2) :
      UnknownClosed (.UnknownObject module_path local_path objects values)

/-- Unwrap an `Except`, with a fallback for the error case (used to name
the objects produced by the construction pipelines below). -/
def okOr {ε α : Type} (e : Except ε α) (d : α) : α :=
  match e with
  | .ok a => a
  | .error _ => d

/-! Concrete engine states used by the claims.  The builtin bootstrap
classes mirror what `modules.parse_modules(builtins, ...)` produces for
`type` and `object` (and similarly `dict` / `str`): `type(type) is type`
terminates the metaclass loop of `_collect_dependencies` before recording
an entry for `type` itself, so `metaclass_paths` has no entry for `type`
and `_dependency_node_to_object` passes `None`; `object`'s metaclass entry
is `type`; `__mro__[1:-1]` is empty for these classes, so no base objects.
Attribute tables are left empty, which embeds exactly the states in which
the names looked up below are genuinely absent. -/

def typeClsObj : Object :=
  .Class (.mk .METACLASS ["builtins"] ["type"] [] [] []) [] .pyNone [] []

def objectClsObj : Object :=
  .Class (.mk .CLASS ["builtins"] ["object"] [] [] []) [] (.obj typeClsObj)
    [] []

def dictClsObj : Object :=
  .Class (.mk .CLASS ["builtins"] ["dict"] [] [] []) [] (.obj typeClsObj)
    [] []

def strClsObj : Object :=
  .Class (.mk .CLASS ["builtins"] ["str"] [] [] []) [] (.obj typeClsObj)
    [] []

/-- The object bound for `x` in `class B1: x = 1` (the constructor default
for a constant right side is an `UnknownObject` at the target path). -/
def xB1 : Object := .UnknownObject ["m"] ["B1", "x"] [] []

/-- The object bound for `x` in `class B2: x = 2`. -/
def xB2 : Object := .UnknownObject ["m"] ["B2", "x"] [] []

/-- Walker construction of `class B1: x = 1` at module `m`. -/
def build_B1 : Except PyErr Object :=
  visit_ClassDef_class_object "B1" ["m"] [] [] [("x", xB1)]
    [("x", .intV 1)] none objectClsObj dictClsObj strClsObj

/-- Walker construction of `class B2: x = 2` at module `m`. -/
def build_B2 : Except PyErr Object :=
  visit_ClassDef_class_object "B2" ["m"] [] [] [("x", xB2)]
    [("x", .intV 2)] none objectClsObj dictClsObj strClsObj

def B1_class : Object := okOr build_B1 (.UnknownObject [] [] [] [])

def B2_class : Object := okOr build_B2 (.UnknownObject [] [] [] [])

/-- Walker construction of `class C(B1, B2): pass` at module `m`: the two
declared bases, in declaration order, resolved to the walker-built `B1`
and `B2`. -/
def build_C : Except PyErr Object :=
  visit_ClassDef_class_object "C" ["m"] [] [some B1_class, some B2_class]
    [] [] none objectClsObj dictClsObj strClsObj

def C_class : Object := okOr build_C (.UnknownObject [] [] [] [])

/-- Walker construction of `class D: pass` at module `m` (no bases, no
`metaclass=` keyword). -/
def build_D : Except PyErr Object :=
  visit_ClassDef_class_object "D" ["m"] [] [] [] [] none objectClsObj
    dictClsObj strClsObj

def D_class : Object := okOr build_D (.UnknownObject [] [] [] [])

/-- A routine bound as `f` in a class body (an `object_.py` `Routine`). -/
def fRoutine : Object := .Routine ["m"] ["B", "f"] [] [] []

/-- A class whose body scope binds the routine `f`. -/
def fOwnerCls : Object :=
  .Class (.mk .CLASS ["m"] ["B"] [("f", fRoutine)] [] []) [] .pyNone [] []

/-- An INSTANCE of that class: its included object is the class. -/
def fInstance : Object :=
  .PlainObject .INSTANCE ["m"] ["p"] [fOwnerCls] [] []

/-- A routine bound as `g` in a metaclass body. -/
def gRoutine : Object := .Routine ["m"] ["MetaT", "g"] [] [] []

/-- A metaclass whose body scope binds the routine `g`. -/
def gMetaCls : Object :=
  .Class (.mk .METACLASS ["m"] ["MetaT"] [("g", gRoutine)] [] []) [] .pyNone
    [] []

/-- A CLASS-kind class whose metaclass is that metaclass. -/
def gOwnedCls : Object :=
  .Class (.mk .CLASS ["m"] ["C2"] [] [] []) [] (.obj gMetaCls) [] []

/-- A CLASS-kind class with the `None` metaclass slot and no bases (the
state in which a genuine miss reaches `None.get_attribute` directly). -/
def noneMetaCls : Object :=
  .Class (.mk .CLASS ["m"] ["E"] [] [] []) [] .pyNone [] []

/-- A bound attribute object for the value-deletion claim. -/
def xAttr : Object := .UnknownObject ["m"] ["A", "x"] [] []

/-- A `Class` with attribute `x` bound and concrete value `1`. -/
def C3_class : Object :=
  .Class (.mk .CLASS ["m"] ["A"] [] [] []) [] .pyNone [("x", xAttr)]
    [("x", .intV 1)]

/-- A `PlainObject` with attribute `x` bound and concrete value `1`. -/
def C3_plain : Object :=
  .PlainObject .INSTANCE ["m"] ["a"] [] [("x", xAttr)] [("x", .intV 1)]

/-- A module `Scope` with `x` bound and concrete value `1`. -/
def C3_scope : Scope :=
  .mk .STATIC_MODULE ["m"] [] [("x", xAttr)] [] [("x", .intV 1)]

/-- An empty static module scope at module `m`. -/
def module_scope0 : Scope := .mk .STATIC_MODULE ["m"] [] [] [] []

/-! Helper lemmas about the dict embeddings. -/

theorem alookup_mem {α : Type} {m : List (String × α)} {k : String} {v : α}
    (h : alookup m k = some v) : (k, v) ∈ m := by
  induction m with
  | nil => simp [alookup] at h
  | cons p rest ih =>
    obtain ⟨k', v'⟩ := p
    by_cases hk : k' = k
    · subst hk
      simp [alookup] at h
      subst h
      exact List.mem_cons_self _ _
    · simp [alookup, hk] at h
      exact List.mem_cons_of_mem _ (ih h)

theorem mem_ainsert {α : Type} {m : List (String × α)} {k : String} {v : α}
    {p : String × α} (h : p ∈ ainsert m k v) : p = (k, v) ∨ p ∈ m := by
  induction m with
  | nil =>
    simp [ainsert] at h
    exact Or.inl h
  | cons q rest ih =>
    obtain ⟨k', v'⟩ := q
    by_cases hk : k' = k
    · subst hk
      simp [ainsert] at h
      rcases h with h | h
      · exact Or.inl h
      · exact Or.inr (List.mem_cons_of_mem _ h)
    · simp [ainsert, hk] at h
      rcases h with h | h
      · exact Or.inr (by simp [h])
      · rcases ih h with h' | h'
        · exact Or.inl h'
        · exact Or.inr (List.mem_cons_of_mem _ h')

theorem alookup_ainsert_self {α : Type} (m : List (String × α)) (k : String)
    (v : α) : alookup (ainsert m k v) k = some v := by
  induction m with
  | nil => simp [ainsert, alookup]
  | cons q rest ih =>
    obtain ⟨k', v'⟩ := q
    by_cases hk : k' = k
    · subst hk
      simp [ainsert, alookup]
    · simp [ainsert, alookup, hk, ih]

theorem klookup_kinsert_self {κ α : Type} [DecidableEq κ]
    (m : List (κ × α)) (k : κ) (v : α) :
    klookup (kinsert m k v) k = some v := by
  induction m with
  | nil => simp [kinsert, klookup]
  | cons q rest ih =>
    obtain ⟨k', v'⟩ := q
    by_cases hk : k' = k
    · subst hk
      simp [kinsert, klookup]
    · simp [kinsert, klookup, hk, ih]

theorem kerase_kinsert_of_not_mem {κ α : Type} [DecidableEq κ]
    {m : List (κ × α)} {k : κ} (h : klookup m k = none) (v : α) :
    kerase (kinsert m k v) k = m := by
  induction m with
  | nil => simp [kinsert, kerase]
  | cons q rest ih =>
    obtain ⟨k', v'⟩ := q
    by_cases hk : k' = k
    · subst hk
      simp [klookup] at h
    · simp [klookup, hk] at h
      simp [kinsert, kerase, hk, ih h]

/-! Helper lemmas for the `UnknownObject` absorbing-element claim. -/

theorem unknown_get_attribute_ok (fuel : Nat) {o : Object}
    (h : UnknownClosed o) (name : String) :
    ∃ r o', Object.get_attribute (fuel + 1) o name = .ok (r, o')
      ∧ UnknownClosed r ∧ UnknownClosed o' := by
  cases h with
  | intro mp lp objects values hobj =>
    cases hm : alookup objects name with
    | some r =>
      refine ⟨r, .UnknownObject mp lp objects values, ?_, ?_, ?_⟩
      · simp [Object.get_attribute, hm]
      · exact hobj _ (alookup_mem hm)
      · exact .intro mp lp objects values hobj
    | none =>
      refine ⟨.UnknownObject mp (lp.join name) [] [],
        .UnknownObject mp lp
          (ainsert objects name (.UnknownObject mp (lp.join name) [] []))
          values, ?_, ?_, ?_⟩
      · simp [Object.get_attribute, hm]
      · exact .intro _ _ [] [] (by intro p hp; cases hp)
      · refine .intro mp lp _ values ?_
        intro p hp
        rcases mem_ainsert hp with h1 | h2
        · subst h1
          exact .intro _ _ [] [] (by intro q hq; cases hq)
        · exact hobj _ h2

theorem unknown_get_attribute_memo (fuel : Nat) (mp : ModulePath)
    (lp : LocalObjectPath) (objects : List (String × Object))
    (values : List (String × Value)) (name : String) (r o' : Object)
    (h : Object.get_attribute (fuel + 1)
        (.UnknownObject mp lp objects values) name = .ok (r, o')) :
    Object.get_attribute (fuel + 1) o' name = .ok (r, o') := by
  cases hm : alookup objects name with
  | some r₀ =>
    simp [Object.get_attribute, hm] at h
    obtain ⟨h1, h2⟩ := h
    subst h1
    subst h2
    simp [Object.get_attribute, hm]
  | none =>
    simp [Object.get_attribute, hm] at h
    obtain ⟨h1, h2⟩ := h
    subst h1
    subst h2
    simp [Object.get_attribute, alookup_ainsert_self]

theorem chain_get_attribute_ok (fuel : Nat) (names : List String) :
    ∀ {o : Object}, UnknownClosed o →
      ∃ r, chain_get_attribute (fuel + 1) o names = .ok r
        ∧ UnknownClosed r := by
  induction names with
  | nil => intro o h; exact ⟨o, rfl, h⟩
  | cons n rest ih =>
    intro o h
    obtain ⟨r, o', hg, hr, _⟩ := unknown_get_attribute_ok fuel h n
    obtain ⟨r₂, hc, hr₂⟩ := ih hr
    refine ⟨r₂, ?_, hr₂⟩
    simp [chain_get_attribute, hg, hc]

/-! The claims. -/

/-- C8: on any `UnknownObject` state reachable by construction and
attribute reads, every chain of `get_attribute` calls succeeds and yields
`UnknownObject`s, and a repeated `get_attribute` with the same name
returns the stored (memoized) child — the same object, with the state left
unchanged, so no fresh child is created. -/
theorem C8_unknown_absorbing (fuel : Nat) (o : Object) (names : List String)
    (name : String) (h : UnknownClosed o) :
    (∃ r, chain_get_attribute (fuel + 1) o names = .ok r ∧ UnknownClosed r)
    ∧ (∀ r o', Object.get_attribute (fuel + 1) o name = .ok (r, o') →
        Object.get_attribute (fuel + 1) o' name = .ok (r, o')) := by
  constructor
  · exact chain_get_attribute_ok fuel names h
  · intro r o' hg
    cases h with
    | intro mp lp objects values hobj =>
      exact unknown_get_attribute_memo fuel mp lp objects values name r o' hg

/-- Witness for C8 at a freshly constructed `UnknownObject` and the chain
`.a.b`. -/
theorem C8_unknown_absorbing_witness :
    (∃ r, chain_get_attribute 1 (.UnknownObject ["m"] [] [] []) ["a", "b"]
        = .ok r ∧ UnknownClosed r)
    ∧ (∀ r o',
        Object.get_attribute 1 (.UnknownObject ["m"] [] [] []) "a"
          = .ok (r, o') →
        Object.get_attribute 1 o' "a" = .ok (r, o')) :=
  C8_unknown_absorbing 0 (.UnknownObject ["m"] [] [] []) ["a", "b"] "a"
    (.intro ["m"] [] [] [] (by intro p hp; cases hp))

/-- C7: `mark_module_as_dynamic` succeeds exactly on a `STATIC_MODULE`
scope, turning it into a `DYNAMIC_MODULE` scope with every other field
unchanged; called again on the result — or on any scope of any other
kind — it fails fast with the assertion. -/
theorem C7_mark_module_as_dynamic_monotonic (s s' : Scope)
    (h : Scope.mark_module_as_dynamic s = .ok s') :
    s.kind = .STATIC_MODULE ∧ s'.kind = .DYNAMIC_MODULE
    ∧ s'.module_path = s.module_path ∧ s'.local_path = s.local_path
    ∧ s'.objects = s.objects ∧ s'.included_objects = s.included_objects
    ∧ s'.values = s.values
    ∧ Scope.mark_module_as_dynamic s' = .error .assertionError
    ∧ (∀ t : Scope, t.kind ≠ .STATIC_MODULE →
        Scope.mark_module_as_dynamic t = .error .assertionError) := by
  obtain ⟨k, mp, lp, o, inc, v⟩ := s
  have htail : ∀ t : Scope, t.kind ≠ .STATIC_MODULE →
      Scope.mark_module_as_dynamic t = .error .assertionError := by
    intro t ht
    obtain ⟨kt, mpt, lpt, ot, inct, vt⟩ := t
    simp [Scope.kind] at ht
    simp [Scope.mark_module_as_dynamic, ht]
  by_cases hk : k = .STATIC_MODULE
  · subst hk
    simp [Scope.mark_module_as_dynamic] at h
    subst h
    exact ⟨rfl, rfl, rfl, rfl, rfl, rfl, rfl, by
      simp [Scope.mark_module_as_dynamic], htail⟩
  · simp [Scope.mark_module_as_dynamic, hk] at h

/-- Witness for C7 at the empty static module scope. -/
theorem C7_mark_module_as_dynamic_witness :
    Scope.mark_module_as_dynamic module_scope0
      = .ok (.mk .DYNAMIC_MODULE ["m"] [] [] [] [])
    ∧ Scope.mark_module_as_dynamic (.mk .DYNAMIC_MODULE ["m"] [] [] [] [])
      = .error .assertionError :=
  ⟨rfl,
    (C7_mark_module_as_dynamic_monotonic module_scope0
      (.mk .DYNAMIC_MODULE ["m"] [] [] [] []) rfl).2.2.2.2.2.2.2.1⟩

/-- C9: when an if-statement's test evaluates successfully, only the taken
branch is visited; in particular `if False: x = 1` at module scope leaves
`x` unbound in the module scope, while the `if True` variant binds it. -/
theorem C9_conditional_branch_exclusivity :
    (∀ (fuel : Nat) (scope : Scope) (v : Value) (body orelse : List MStmt),
      visit_stmt (fuel + 1) scope (.ifStmt (.const v) body orelse)
        = visit_stmts fuel scope (if v.truthy then body else orelse))
    ∧ visit_stmt 3 module_scope0
        (.ifStmt (.const (.boolV false))
          [.assign "x" (.const (.intV 1))] [])
        = (module_scope0, none)
    ∧ acontains module_scope0.objects "x" = false
    ∧ visit_stmt 3 module_scope0
        (.ifStmt (.const (.boolV true))
          [.assign "x" (.const (.intV 1))] [])
        = (.mk .STATIC_MODULE ["m"] []
            [("x", .UnknownObject ["m"] ["x"] [] [])] []
            [("x", .intV 1)], none)
    ∧ acontains (Scope.objects (visit_stmt 3 module_scope0
        (.ifStmt (.const (.boolV true))
          [.assign "x" (.const (.intV 1))] [])).1) "x" = true :=
  ⟨fun _ _ _ _ _ => rfl, rfl, rfl, rfl, rfl⟩

/-- C2: the builtin `eval`/`exec` branch of
`_does_function_modify_caller_global_state` computes the claimed formula
only on a cache miss; its verdict is memoized by the early return at line
123 (never discarded), so a later analyzed call with different arguments —
here a zero-argument `eval()` after an `eval(src, g)` with two known
positional arguments — is judged from the cache (`False`) although the
claimed condition (fewer than two known positional arguments, no `globals`
keyword) holds for it. -/
theorem C2_eval_exec_cache_bug :
    does_builtin_function_modify_caller_global_state [] ["builtins"]
        ["eval"] [.value (.strV "src"), .value (.strV "g")] []
      = (false, [((["builtins"], ["eval"]), false)])
    ∧ does_builtin_function_modify_caller_global_state
        [((["builtins"], ["eval"]), false)] ["builtins"] ["eval"] [] []
      = (false, [((["builtins"], ["eval"]), false)])
    ∧ count_not_starred_unknown [] < 2
    ∧ acontains ([] : List (String × Value)) "globals" = false
    ∧ (∀ (pos : List PositionalArgument) (kw : List (String × Value)),
        (does_builtin_function_modify_caller_global_state [] ["builtins"]
          ["eval"] pos kw).1
          = (decide (count_not_starred_unknown pos < 2)
              && !(acontains kw "globals"))) :=
  ⟨rfl, rfl, by decide, rfl, fun _ _ => rfl⟩

/-- C3: `Class.set_value(name, MISSING)` stores the `MISSING` sentinel
itself (the `else:` of every sibling variant is absent), so
`get_value_or_else` afterwards returns `MISSING`, not the default; the
`PlainObject` and `Scope` variants do delete the value as claimed. -/
theorem C3_class_set_value_stores_missing :
    Object.set_value C3_class "x" .missing
      = .ok (.Class (.mk .CLASS ["m"] ["A"] [] [] []) [] .pyNone
          [("x", xAttr)] [("x", .missing)])
    ∧ Object.get_value_or_else
        (.Class (.mk .CLASS ["m"] ["A"] [] [] []) [] .pyNone
          [("x", xAttr)] [("x", .missing)]) "x" (.intV 7) = .missing
    ∧ Value.missing ≠ .intV 7
    ∧ Object.set_value C3_plain "x" .missing
      = .ok (.PlainObject .INSTANCE ["m"] ["a"] [] [("x", xAttr)] [])
    ∧ Object.get_value_or_else
        (.PlainObject .INSTANCE ["m"] ["a"] [] [("x", xAttr)] []) "x"
        (.intV 7) = .intV 7
    ∧ Scope.set_value C3_scope "x" .missing
      = .ok (.mk .STATIC_MODULE ["m"] [] [("x", xAttr)] [] [])
    ∧ Scope.get_value_or_else
        (.mk .STATIC_MODULE ["m"] [] [("x", xAttr)] [] []) "x" (.intV 7)
      = .intV 7 :=
  ⟨rfl, rfl, by decide, rfl, rfl, rfl, rfl⟩

/-- C4: lookup of a routine through an instance's included class, and
through a class's metaclass, does rewrap the routine as a `Method`; but the
wrapped object's `kind` property returns `ObjectKind.METHOD`, a member the
enumeration does not declare, so querying the kind raises `AttributeError`
instead of yielding `INSTANCE_ROUTINE` (the member the rest of the package
tests for). -/
theorem C4_method_kind_attribute_error :
    Object.get_attribute 9 fInstance "f"
      = .ok (.Method fRoutine fInstance, fInstance)
    ∧ Object.kind (.Method fRoutine fInstance) = .error .attributeError
    ∧ ObjectKind.fromName "METHOD" = none
    ∧ ObjectKind.fromName "INSTANCE_ROUTINE" = some .INSTANCE_ROUTINE
    ∧ Object.get_attribute 9 gOwnedCls "g"
      = .ok (.Method gRoutine gOwnedCls, gOwnedCls)
    ∧ Object.kind (.Method gRoutine gOwnedCls) = .error .attributeError :=
  ⟨rfl, rfl, rfl, rfl, rfl, rfl⟩

/-- C1: `visit_ClassDef` stores the constructed bases of
`class C(B1, B2)` in reverse declaration order (`[B2, B1]`), and
`Class.get_attribute` consults them in stored order, so a name bound in
both bases resolves to `B2`'s binding, not `B1`'s. -/
theorem C1_walker_base_order_reversed :
    build_C = .ok C_class
    ∧ Object.basesField C_class = some [B2_class, B1_class]
    ∧ Object.get_attribute 16 C_class "x" = .ok (xB2, C_class)
    ∧ Object.local_path xB2 = ["B2", "x"]
    ∧ Object.local_path xB1 = ["B1", "x"]
    ∧ xB2 ≠ xB1 :=
  ⟨rfl, rfl, rfl, rfl, rfl, by simp [xB1, xB2]⟩

/-- C10: both class construction sites store Python `None` (not the
`MISSING` sentinel) in the metaclass slot when no metaclass is known —
`_dependency_node_to_object` for `type` itself, and `visit_ClassDef` for a
class without a `metaclass=` keyword — so a genuine attribute miss on such
a class does not surface as the key-not-found condition: on the
bootstrapped walker-built `class D: pass` it propagates the `AssertionError`
of `type`'s lookup, and on a CLASS-kind class whose miss reaches its own
`None` metaclass directly it raises `AttributeError` from
`None.get_attribute`. -/
theorem C10_metaclass_none_not_missing :
    dependency_node_to_class .METACLASS ["builtins"] ["type"] [] none
      = .ok typeClsObj
    ∧ Object.metaclassField typeClsObj = some .pyNone
    ∧ build_D = .ok D_class
    ∧ Object.metaclassField D_class = some .pyNone
    ∧ Object.get_attribute 16 D_class "absent"
      = .error (.py .assertionError)
    ∧ Object.get_attribute 9 noneMetaCls "absent"
      = .error (.py .attributeError)
    ∧ LookupErr.py .assertionError ≠ .py .keyError
    ∧ LookupErr.py .attributeError ≠ .py .keyError :=
  ⟨rfl, rfl, rfl, rfl, rfl, rfl, by decide, by decide⟩

/-- C5: on a registry miss for a source-file module path, the loader
registers the fresh module before walking the body — a walk that demands
the registry entry succeeds — and when the walk raises, the registry entry
is removed again and the exception re-raised, leaving the registry exactly
as before the call. -/
theorem C5_register_before_walk_rollback_on_failure
    (fpaths : List (ModulePath × ModuleFilePathEntry))
    (walk : List (ModulePath × Nat) → Except PyErr Unit) (mp : ModulePath)
    (st : LoaderState) (e : PyErr)
    (hmiss : klookup st.registry mp = none)
    (hsrc : klookup fpaths mp = some .sourceFile) :
    (walk (kinsert st.registry mp st.nextId) = .error e →
      load_module_path_namespace fpaths walk mp st
        = (.error e, ⟨st.registry, st.nextId + 1⟩))
    ∧ load_module_path_namespace fpaths
        (fun reg => if (klookup reg mp).isSome then .ok ()
          else .error .assertionError) mp st
        = (.ok ⟨st.nextId, .registered⟩,
           ⟨kinsert st.registry mp st.nextId, st.nextId + 1⟩) := by
  constructor
  · intro hw
    simp [load_module_path_namespace, hmiss, hsrc, hw,
      kerase_kinsert_of_not_mem hmiss]
  · simp [load_module_path_namespace, hmiss, hsrc, klookup_kinsert_self]

/-- Witness for C5: a one-module mapping, an empty registry, and a walk
that fails with `TypeError`. -/
theorem C5_register_before_walk_rollback_witness :
    load_module_path_namespace
        [((["a"] : ModulePath), ModuleFilePathEntry.sourceFile)]
        (fun _ => .error .typeError) ["a"] ⟨[], 0⟩
      = (.error .typeError, ⟨[], 1⟩)
    ∧ load_module_path_namespace
        [((["a"] : ModulePath), ModuleFilePathEntry.sourceFile)]
        (fun reg => if (klookup reg (["a"] : ModulePath)).isSome then .ok ()
          else .error .assertionError) ["a"] ⟨[], 0⟩
      = (.ok ⟨0, .registered⟩, ⟨[((["a"] : ModulePath), 0)], 1⟩) :=
  ⟨(C5_register_before_walk_rollback_on_failure
      [((["a"] : ModulePath), ModuleFilePathEntry.sourceFile)]
      (fun _ => .error .typeError) ["a"] ⟨[], 0⟩ .typeError rfl rfl).1 rfl,
    (C5_register_before_walk_rollback_on_failure
      [((["a"] : ModulePath), ModuleFilePathEntry.sourceFile)]
      (fun reg => if (klookup reg (["a"] : ModulePath)).isSome then .ok ()
        else .error .assertionError) ["a"] ⟨[], 0⟩ .typeError rfl rfl).2⟩

/-- C6 counterexample: for a builtin module path (file path `None`), two
successive loader calls return placeholders with distinct identities — the
claim's universally quantified identity fails at this input. -/
theorem C6_identity_counterexample :
    load_module_path_namespace [((["sys"] : ModulePath), .pyNone)]
        (fun _ => .ok ()) ["sys"] ⟨[], 0⟩
      = (.ok ⟨0, .builtinPlaceholder⟩, ⟨[], 1⟩)
    ∧ load_module_path_namespace [((["sys"] : ModulePath), .pyNone)]
        (fun _ => .ok ()) ["sys"] ⟨[], 1⟩
      = (.ok ⟨1, .builtinPlaceholder⟩, ⟨[], 2⟩)
    ∧ (0 : Nat) ≠ 1 :=
  ⟨rfl, rfl, by decide⟩

/-- C6 amended: for a module path with a registry entry (every source-file
module once loaded), the loader returns the identical cached object on
every call and leaves the state unchanged — in particular a fresh
source-file load followed by a reload yields the same identity; for a
builtin-placeholder path, each call returns a fresh placeholder with a new
identity. -/
theorem C6_loader_identity_amended
    (fpaths : List (ModulePath × ModuleFilePathEntry))
    (walk : List (ModulePath × Nat) → Except PyErr Unit)
    (mp mp' : ModulePath) (st : LoaderState) (i : Nat)
    (hhit : klookup st.registry mp = some i)
    (hmiss : klookup st.registry mp' = none)
    (hb : klookup fpaths mp' = some .pyNone) :
    (load_module_path_namespace fpaths walk mp st
        = (.ok ⟨i, .registered⟩, st)
      ∧ load_module_path_namespace fpaths walk mp
          (load_module_path_namespace fpaths walk mp st).2
        = (.ok ⟨i, .registered⟩, st))
    ∧ (load_module_path_namespace fpaths walk mp' st
        = (.ok ⟨st.nextId, .builtinPlaceholder⟩,
           ⟨st.registry, st.nextId + 1⟩)
      ∧ load_module_path_namespace fpaths walk mp'
          ⟨st.registry, st.nextId + 1⟩
        = (.ok ⟨st.nextId + 1, .builtinPlaceholder⟩,
           ⟨st.registry, st.nextId + 2⟩)
      ∧ st.nextId ≠ st.nextId + 1)
    ∧ (klookup st.registry mp' = none →
       klookup fpaths mp' = some .sourceFile →
       walk (kinsert st.registry mp' st.nextId) = .ok () →
       load_module_path_namespace fpaths walk mp' st
          = (.ok ⟨st.nextId, .registered⟩,
             ⟨kinsert st.registry mp' st.nextId, st.nextId + 1⟩)
        ∧ load_module_path_namespace fpaths walk mp'
            ⟨kinsert st.registry mp' st.nextId, st.nextId + 1⟩
          = (.ok ⟨st.nextId, .registered⟩,
             ⟨kinsert st.registry mp' st.nextId, st.nextId + 1⟩)) := by
  refine ⟨⟨?_, ?_⟩, ⟨?_, ?_, ?_⟩, ?_⟩
  · simp [load_module_path_namespace, hhit]
  · simp [load_module_path_namespace, hhit]
  · simp [load_module_path_namespace, hmiss, hb]
  · simp [load_module_path_namespace, hmiss, hb]
  · omega
  · intro hm hsrc hw
    constructor
    · simp [load_module_path_namespace, hm, hsrc, hw]
    · simp [load_module_path_namespace, klookup_kinsert_self]

/-- Witness for C6 amended: registry `{b ↦ 5}`, a builtin path `a`. -/
theorem C6_loader_identity_amended_witness :
    (load_module_path_namespace
        [((["a"] : ModulePath), ModuleFilePathEntry.pyNone)]
        (fun _ => .ok ()) ["b"] ⟨[((["b"] : ModulePath), 5)], 7⟩
      = (.ok ⟨5, .registered⟩, ⟨[((["b"] : ModulePath), 5)], 7⟩))
    ∧ (load_module_path_namespace
        [((["a"] : ModulePath), ModuleFilePathEntry.pyNone)]
        (fun _ => .ok ()) ["a"] ⟨[((["b"] : ModulePath), 5)], 7⟩
      = (.ok ⟨7, .builtinPlaceholder⟩,
         ⟨[((["b"] : ModulePath), 5)], 8⟩)) :=
  ⟨(C6_loader_identity_amended
      [((["a"] : ModulePath), ModuleFilePathEntry.pyNone)]
      (fun _ => .ok ()) ["b"] ["a"] ⟨[((["b"] : ModulePath), 5)], 7⟩ 5
      rfl rfl rfl).1.1,
    (C6_loader_identity_amended
      [((["a"] : ModulePath), ModuleFilePathEntry.pyNone)]
      (fun _ => .ok ()) ["b"] ["a"] ⟨[((["b"] : ModulePath), 5)], 7⟩ 5
      rfl rfl rfl).2.1.1⟩

end Unused
